import Mathlib

/-!
# Verification of the splat/model merging core (`merge_splats.py` and the
identifier-space merger) of the `real-earth-3d` repository.

This file gives a shallow embedding of the point-cloud (PLY) codec, the
scaled-ICP alignment engine, the attribute transformer and the
identifier-space model merger, and proves or refutes the specification's
claims about them.

Modelling conventions:
* Machine floats of the Python/NumPy code are modelled as rationals (`ℚ`).
  Calls into external libraries (`struct` packing of IEEE floats,
  `numpy.linalg.svd`, the square root, `numpy.random.choice`) are modelled
  as explicit oracle parameters; everything implemented in the repository
  itself is translated directly.
* A text line of a PLY header is modelled as its list of
  whitespace-separated tokens, exactly the view the Python code takes of a
  line after `line.strip()` / `line.split()`.
* The binary body of a file is a list of bytes (`ℕ`, each < 256 in intended
  use).
-/

set_option autoImplicit false

namespace RealEarth

/-! ## Basic linear algebra over ℚ (3-vectors, 3×3 matrices, affine maps) -/

/-- A 3-vector of rationals, modelling a NumPy row of 3 float64 entries. -/
structure Vec3 where
  x : ℚ
  y : ℚ
  z : ℚ
deriving DecidableEq

instance : Add Vec3 := ⟨fun a b => ⟨a.x + b.x, a.y + b.y, a.z + b.z⟩⟩

instance : Sub Vec3 := ⟨fun a b => ⟨a.x - b.x, a.y - b.y, a.z - b.z⟩⟩

instance : SMul ℚ Vec3 := ⟨fun q v => ⟨q * v.x, q * v.y, q * v.z⟩⟩

instance : Zero Vec3 := ⟨⟨0, 0, 0⟩⟩

/-- Coordinatewise division by a scalar (NumPy broadcasting `points / scale`). -/
def Vec3.divQ (v : Vec3) (s : ℚ) : Vec3 := ⟨v.x / s, v.y / s, v.z / s⟩

/-- Squared Euclidean distance between two points. -/
def Vec3.sqdist (a b : Vec3) : ℚ :=
  (a.x - b.x) * (a.x - b.x) + (a.y - b.y) * (a.y - b.y) + (a.z - b.z) * (a.z - b.z)

/-- A 3×3 matrix of rationals. -/
structure Mat3 where
  xx : ℚ
  xy : ℚ
  xz : ℚ
  yx : ℚ
  yy : ℚ
  yz : ℚ
  zx : ℚ
  zy : ℚ
  zz : ℚ
deriving DecidableEq

/-- The identity matrix (`np.eye(3)`). -/
def Mat3.id : Mat3 := ⟨1, 0, 0, 0, 1, 0, 0, 0, 1⟩

/-- Matrix transpose. -/
def Mat3.transpose (m : Mat3) : Mat3 :=
  ⟨m.xx, m.yx, m.zx, m.xy, m.yy, m.zy, m.xz, m.yz, m.zz⟩

/-- Matrix product. -/
def Mat3.mul (a b : Mat3) : Mat3 :=
  ⟨a.xx * b.xx + a.xy * b.yx + a.xz * b.zx,
   a.xx * b.xy + a.xy * b.yy + a.xz * b.zy,
   a.xx * b.xz + a.xy * b.yz + a.xz * b.zz,
   a.yx * b.xx + a.yy * b.yx + a.yz * b.zx,
   a.yx * b.xy + a.yy * b.yy + a.yz * b.zy,
   a.yx * b.xz + a.yy * b.yz + a.yz * b.zz,
   a.zx * b.xx + a.zy * b.yx + a.zz * b.zx,
   a.zx * b.xy + a.zy * b.yy + a.zz * b.zy,
   a.zx * b.xz + a.zy * b.yz + a.zz * b.zz⟩

/-- Matrix–vector product. -/
def Mat3.mulVec (m : Mat3) (v : Vec3) : Vec3 :=
  ⟨m.xx * v.x + m.xy * v.y + m.xz * v.z,
   m.yx * v.x + m.yy * v.y + m.yz * v.z,
   m.zx * v.x + m.zy * v.y + m.zz * v.z⟩

/-- Determinant. -/
def Mat3.det (m : Mat3) : ℚ :=
  m.xx * (m.yy * m.zz - m.yz * m.zy)
    - m.xy * (m.yx * m.zz - m.yz * m.zx)
    + m.xz * (m.yx * m.zy - m.yy * m.zx)

instance : SMul ℚ Mat3 :=
  ⟨fun q m => ⟨q * m.xx, q * m.xy, q * m.xz, q * m.yx, q * m.yy, q * m.yz,
               q * m.zx, q * m.zy, q * m.zz⟩⟩

/-- Negate the last row of a matrix (`Vt[-1,:] *= -1` in the SVD
reflection fix). -/
def Mat3.negRow3 (m : Mat3) : Mat3 :=
  ⟨m.xx, m.xy, m.xz, m.yx, m.yy, m.yz, -m.zx, -m.zy, -m.zz⟩

/-- Outer product of two 3-vectors. -/
def Vec3.outer (a b : Vec3) : Mat3 :=
  ⟨a.x * b.x, a.x * b.y, a.x * b.z,
   a.y * b.x, a.y * b.y, a.y * b.z,
   a.z * b.x, a.z * b.y, a.z * b.z⟩

instance : Add Mat3 :=
  ⟨fun a b => ⟨a.xx + b.xx, a.xy + b.xy, a.xz + b.xz, a.yx + b.yx, a.yy + b.yy,
               a.yz + b.yz, a.zx + b.zx, a.zy + b.zy, a.zz + b.zz⟩⟩

instance : Zero Mat3 := ⟨⟨0, 0, 0, 0, 0, 0, 0, 0, 0⟩⟩

/-- A rigid(+scale) transform, the (rotation block, translation column)
view of a 4×4 homogeneous matrix whose last row is `[0 0 0 1]`.  The code
only ever builds and multiplies such matrices (`np.eye(4)` with the
`[:3,:3]` block and `[:3,3]` column assigned), for which the 4×4 product
is exactly the composition law below. -/
structure Affine where
  R : Mat3
  t : Vec3
deriving DecidableEq

/-- The identity transform (`np.eye(4)`). -/
def Affine.idA : Affine := ⟨Mat3.id, 0⟩

/-- Composition `A₂ ∘ A₁`, the 4×4 product `M₂ @ M₁`. -/
def Affine.comp (a2 a1 : Affine) : Affine :=
  ⟨a2.R.mul a1.R, a2.R.mulVec a1.t + a2.t⟩

/-! ## The point-cloud (PLY) codec of `merge_splats.py`

A header line is its list of whitespace-separated tokens (the view the
Python code takes after `strip()`/`split()`); the binary body is a byte
list. -/

/-- A PLY file: the textual line region of the file followed by its binary
body.  `headerLines` holds every line of the textual region (tokenised);
when no line is the `end_header` marker the reader consumes them all and
then spins at end of file. -/
structure PlyFile where
  headerLines : List (List String)
  body : List ℕ
deriving DecidableEq

/-- `read_ply_header`: consume lines until the `end_header` marker,
returning all consumed lines (marker included).  The Python loop never
raises: on a file with no marker it keeps calling `readline` at end of
file forever, which the `Option` models as `none` (no result is ever
produced — in particular no `FormatError`). -/
def read_ply_header : List (List String) → Option (List (List String))
  | [] => none
  | l :: ls =>
    if l = ["end_header"] then some [l]
    else
      match read_ply_header ls with
      | none => none
      | some h => some (l :: h)

/-- The `type_map` dictionary of `parse_property_type`. -/
def typeMap : List (String × Char) :=
  [("float", 'f'), ("float32", 'f'), ("double", 'd'), ("float64", 'd'),
   ("uchar", 'B'), ("uint8", 'B'), ("uint", 'I'), ("uint32", 'I')]

/-- `parse_property_type`: `type_map.get(type_str, 'f')` — an unrecognised
type string silently falls back to `'f'`. -/
def parse_property_type (s : String) : Char :=
  (typeMap.lookup s).getD 'f'

/-- Byte size of one `struct` format character (`struct.calcsize`, no
padding under the `<` little-endian prefix). -/
def fmtSize : Char → ℕ
  | 'f' => 4
  | 'd' => 8
  | 'B' => 1
  | 'I' => 4
  | _ => 0

/-- `struct.calcsize` of the whole per-point format string. -/
def structSize (fmts : List Char) : ℕ :=
  (fmts.map fmtSize).sum

/-- The uncaught Python exceptions the header-parsing loop of
`merge_splats` can raise: `int(line.split()[-1])` on a non-numeric
vertex count raises `ValueError` (line 206), and `parts[1]` on a bare
`property` line raises `IndexError` (line 209).  Neither is a
`FormatError`. -/
inductive HeaderParseError where
  | valueError
  | indexError
deriving DecidableEq

/-- Decimal-digit accumulator for `strToInt?`. -/
def digitsValAux (acc : ℕ) : List Char → Option ℕ
  | [] => some acc
  | c :: cs =>
    if 48 ≤ c.toNat ∧ c.toNat ≤ 57 then digitsValAux (acc * 10 + (c.toNat - 48)) cs
    else none

/-- Python's `int(token)` on a whitespace-free token: an optional sign
followed by at least one decimal digit, `none` (a `ValueError`)
otherwise.  (Python additionally tolerates digit-group underscores,
immaterial for the headers at issue.) -/
def strToInt? (s : String) : Option ℤ :=
  match s.toList with
  | [] => none
  | '-' :: cs => if cs = [] then none else (digitsValAux 0 cs).map (fun n => -(n : ℤ))
  | '+' :: cs => if cs = [] then none else (digitsValAux 0 cs).map (fun n => (n : ℤ))
  | cs => (digitsValAux 0 cs).map (fun n => (n : ℤ))

/-- The header-parsing loop of `merge_splats` (lines 202–210): collect the
declared vertex count and, for every `property` line, the pair
`(name, struct format char)` where the name is the line's last token and
the type is parsed from token 1.  A non-integer vertex count or a
`property` line with no second token aborts the whole run with the
corresponding uncaught exception. -/
def parseHeaderPropsAux (acc : ℤ × List (String × Char)) :
    List (List String) → Except HeaderParseError (ℤ × List (String × Char))
  | [] => .ok acc
  | line :: rest =>
    if line.take 2 = ["element", "vertex"] then
      match strToInt? (line.getLast?.getD "") with
      | none => .error .valueError
      | some n => parseHeaderPropsAux (n, acc.2) rest
    else if line.headD "" = "property" then
      match line.get? 1 with
      | none => .error .indexError
      | some t =>
        parseHeaderPropsAux
          (acc.1, acc.2 ++ [(line.getLast?.getD "", parse_property_type t)]) rest
    else parseHeaderPropsAux acc rest

/-- `vertex_count = 0; properties = []` followed by the parsing loop. -/
def parseHeaderProps (header : List (List String)) :
    Except HeaderParseError (ℤ × List (String × Char)) :=
  parseHeaderPropsAux (0, []) header

/-- The property list a successfully parsed header yields (empty when
parsing crashed — used only to state theorems about non-crashing runs). -/
def headerProps (header : List (List String)) : List (String × Char) :=
  match parseHeaderProps header with
  | .error _ => []
  | .ok pr => pr.2

/-- Oracle for the external IEEE-754 packing/unpacking done by the
`struct` module: 32- and 64-bit float encode/decode as functions on
rationals and byte lists.  Contracts the code relies on (output lengths,
pack/unpack round trip) appear as explicit hypotheses of the theorems
that need them. -/
structure FloatCodec where
  pack32 : ℚ → List ℕ
  unpack32 : List ℕ → ℚ
  pack64 : ℚ → List ℕ
  unpack64 : List ℕ → ℚ

/-- A concrete instantiation of the float oracle used to state closed
(counter)example theorems: it packs every float to zero bytes of the
correct width and decodes everything to `0`, which satisfies the length
and round-trip contracts. -/
def zeroCodec : FloatCodec where
  pack32 := fun _ => [0, 0, 0, 0]
  unpack32 := fun _ => 0
  pack64 := fun _ => [0, 0, 0, 0, 0, 0, 0, 0]
  unpack64 := fun _ => 0

/-- Little-endian value of a byte list (`struct.unpack('<I', ...)`). -/
def leValue (bs : List ℕ) : ℕ :=
  bs.foldr (fun b acc => b + 256 * acc) 0

/-- Little-endian byte list of a natural number, `k` bytes wide. -/
def leBytes : ℕ → ℕ → List ℕ
  | 0, _ => []
  | k + 1, n => n % 256 :: leBytes k (n / 256)

/-- Unpack one field of a record given its format character. -/
def unpackField (O : FloatCodec) (c : Char) (bs : List ℕ) : ℚ :=
  match c with
  | 'f' => O.unpack32 bs
  | 'd' => O.unpack64 bs
  | 'B' => (bs.headD 0 : ℚ)
  | 'I' => (leValue bs : ℚ)
  | _ => 0

/-- `struct.unpack(struct_format, chunk)`: split one record into its
fields by the per-field sizes and decode each. -/
def unpackFields (O : FloatCodec) : List Char → List ℕ → List ℚ
  | [], _ => []
  | c :: cs, bs => unpackField O c (bs.take (fmtSize c)) :: unpackFields O cs (bs.drop (fmtSize c))

/-- Pack one field.  The float formats go through the oracle; the
integer formats are packed little-endian from the rational's integer
part reduced modulo the field width — an approximation of `struct.pack`,
which instead raises on non-integer values and on out-of-range integers.
The merge pipeline only ever re-packs values it just unpacked, and no
theorem in this file evaluates these two branches. -/
def packField (O : FloatCodec) (c : Char) (v : ℚ) : List ℕ :=
  match c with
  | 'f' => O.pack32 v
  | 'd' => O.pack64 v
  | 'B' => [v.num.toNat % 256]
  | 'I' => leBytes 4 v.num.toNat
  | _ => []

/-- `struct.pack(struct_format, *row)`: concatenation of the packed
fields (the code only ever packs rows whose arity matches the format). -/
def packRow (O : FloatCodec) (fmts : List Char) (row : List ℚ) : List ℕ :=
  (List.zipWith (packField O) fmts row).flatten

/-- The chunking loop of `read_splat_data` (fuel-indexed so that it is
structurally recursive; the fuel is always instantiated with the byte
count, which bounds the number of reads whenever the record size is
positive). -/
def chunkAux : ℕ → ℕ → List ℕ → List (List ℕ)
  | 0, _, _ => []
  | fuel + 1, sz, bs =>
    if 0 < sz ∧ sz ≤ bs.length then bs.take sz :: chunkAux fuel sz (bs.drop sz)
    else []

/-- `read_splat_data`'s record loop: repeatedly `f.read(struct_size)`;
stop on an empty read or on a chunk shorter than the record size — a
partial trailing record is dropped without any error.  (With
`struct_size = 0` the first read returns the empty byte string and the
loop stops at once, as in Python.) -/
def chunkRecords (sz : ℕ) (bs : List ℕ) : List (List ℕ) :=
  chunkAux bs.length sz bs

/-- `read_splat_data(filepath)` for a file, given the struct format
`fmts` computed by the caller (from the *first* file's header): skip the
file's own header, then decode fixed-size records until end of file.
`none` models the reader spinning forever on a file whose header is
unterminated. -/
def read_splat_data (O : FloatCodec) (fmts : List Char) (f : PlyFile) :
    Option (List (List ℚ)) :=
  match read_ply_header f.headerLines with
  | none => none
  | some _ => some ((chunkRecords (structSize fmts) f.body).map (unpackFields O fmts))

/-- The possible outcomes of decoding one point-cloud file: the reader
spins forever at end of file (unterminated header), the header-parsing
loop raises an uncaught `ValueError`/`IndexError`, or decoding succeeds.
There is no `FormatError` outcome because the code has none. -/
inductive DecodeOutcome where
  | diverges
  | crash (e : HeaderParseError)
  | ok (props : List (String × Char)) (rows : List (List ℚ))
deriving DecidableEq

/-- Decoding one point-cloud file exactly as `merge_splats` decodes its
first input: read the header, parse the property list from it (which may
raise), and read the binary records with the resulting struct format. -/
def decodePointCloud (O : FloatCodec) (f : PlyFile) : DecodeOutcome :=
  match read_ply_header f.headerLines with
  | none => .diverges
  | some hdr =>
    match parseHeaderProps hdr with
    | .error e => .crash e
    | .ok pr =>
      match read_splat_data O (pr.2.map Prod.snd) f with
      | none => .diverges
      | some rows => .ok pr.2 rows

/-- The header written by `merge_splats` (lines 283–289): every property
is declared `float` regardless of its input type. -/
def writePlyHeaderLines (count : ℕ) (props : List (String × Char)) : List (List String) :=
  [["ply"], ["format", "binary_little_endian", "1.0"],
   ["element", "vertex", toString count]]
  ++ props.map (fun p => ["property", "float", p.1])
  ++ [["end_header"]]

/-- The body written by `merge_splats` (lines 292–293): each row packed
with `struct_format` — the format computed from the *input* header's
declared types, not from the `float` types just written. -/
def writeBody (O : FloatCodec) (fmts : List Char) (rows : List (List ℚ)) : List ℕ :=
  (rows.map (packRow O fmts)).flatten

/-- Encoding a point cloud as `merge_splats` writes its output (lines
282–293). -/
def encodePointCloud (O : FloatCodec) (props : List (String × Char))
    (rows : List (List ℚ)) : PlyFile :=
  ⟨writePlyHeaderLines rows.length props, writeBody O (props.map Prod.snd) rows⟩

/-! ## The alignment engine (`normalize_points`, `find_transformation_matrix`) -/

/-- Sum of a list of vectors. -/
def vsum (l : List Vec3) : Vec3 :=
  l.foldr (· + ·) 0

/-- `np.mean(points, axis=0)`.  (On an empty list NumPy produces NaN; the
model returns `0`, and every claim about the alignment engine is only
exercised on nonempty point sets.) -/
def centroid (l : List Vec3) : Vec3 :=
  (1 / (l.length : ℚ)) • vsum l

/-- `np.max(np.abs(centered))`: the largest absolute coordinate over the
whole point list (0 on the empty list). -/
def maxAbsCoord (l : List Vec3) : ℚ :=
  l.foldr (fun v m => max (max |v.x| (max |v.y| |v.z|)) m) 0

/-- `normalize_points`: subtract the centroid, divide by the largest
absolute coordinate; returns `(normalized, centroid, scale)`. -/
def normalize_points (points : List Vec3) : List Vec3 × Vec3 × ℚ :=
  let c := centroid points
  let centered := points.map (· - c)
  let scale := maxAbsCoord centered
  (centered.map (fun v => v.divQ scale), c, scale)

/-- Nearest-neighbour lookup modelling the `sklearn` KD-tree query: the
first point of `tgt` at minimal (squared, equivalently Euclidean)
distance from `p`. -/
def nnPoint (tgt : List Vec3) (p : Vec3) : Vec3 :=
  match tgt with
  | [] => 0
  | t :: ts => ts.foldl (fun best q => if Vec3.sqdist q p < Vec3.sqdist best p then q else best) t

/-- Cross-covariance `centered_source.T @ centered_target` of paired
centered point lists. -/
def crossCov : List Vec3 → List Vec3 → Mat3
  | [], _ => 0
  | _, [] => 0
  | a :: as_, b :: bs => Vec3.outer a b + crossCov as_ bs

/-- Mean of a list of rationals (`np.mean`; `0` on the empty list, which
the code never hits with a nonempty source). -/
def qmean (l : List ℚ) : ℚ :=
  l.sum / (l.length : ℚ)

/-- The rotation extraction of one ICP iteration (lines 77–85): from the
SVD oracle's `(U, Vt)` build `R = Vt.T @ U.T`, and if `det R < 0` flip the
sign of `Vt`'s last row and rebuild. -/
def icpRotation (svd : Mat3 → Mat3 × Mat3) (H : Mat3) : Mat3 :=
  let U := (svd H).1
  let Vt := (svd H).2
  let R := Vt.transpose.mul U.transpose
  if R.det < 0 then (Mat3.negRow3 Vt).transpose.mul U.transpose else R

/-- The mutable state of the ICP loop: the accumulated transformation,
the current (already transformed) source points, the previous error, and
the `source_centroid` / `target_centroid` variables — which the loop body
*reassigns* (lines 70–71), shadowing the pre-normalization centroids
computed at lines 46–47. -/
structure IcpState where
  T : Affine
  src : List Vec3
  prevErr : Option ℚ
  sc : Vec3
  tc : Vec3
deriving DecidableEq

/-- The ICP iteration loop (lines 64–109), fuel = remaining iterations of
`range(max_iterations)`.  `svd` is the `np.linalg.svd` oracle and `sq`
the Euclidean square root used in the reported neighbour distances
(`prevErr = none` models the initial `float('inf')`, for which the
convergence test is false).  On convergence the loop breaks *before*
updating the accumulated transformation but *after* reassigning the
centroid variables. -/
def icpLoop (svd : Mat3 → Mat3 × Mat3) (sq : ℚ → ℚ) (tol : ℚ) (tgtN : List Vec3) :
    ℕ → IcpState → IcpState
  | 0, st => st
  | fuel + 1, st =>
    let corr := st.src.map (nnPoint tgtN)
    let dists := st.src.map (fun p => sq (Vec3.sqdist (nnPoint tgtN p) p))
    let sc := centroid st.src
    let tc := centroid corr
    let cs := st.src.map (· - sc)
    let ct := corr.map (· - tc)
    let H := crossCov cs ct
    let R := icpRotation svd H
    let t := tc - R.mulVec sc
    let src2 := st.src.map (fun p => R.mulVec p + t)
    let cur := qmean dists
    match st.prevErr with
    | none =>
      icpLoop svd sq tol tgtN fuel ⟨Affine.comp ⟨R, t⟩ st.T, src2, some cur, sc, tc⟩
    | some pe =>
      if |pe - cur| < tol then ⟨st.T, src2, st.prevErr, sc, tc⟩
      else icpLoop svd sq tol tgtN fuel ⟨Affine.comp ⟨R, t⟩ st.T, src2, some cur, sc, tc⟩

/-- The state of the `source_centroid`/`target_centroid`/`transformation`
variables when the loop of `find_transformation_matrix` finishes. -/
def icpFinalState (svd : Mat3 → Mat3 × Mat3) (sq : ℚ → ℚ)
    (source target : List Vec3) (maxIter : ℕ) (tol : ℚ) : IcpState :=
  let sn := normalize_points source
  let tn := normalize_points target
  icpLoop svd sq tol tn.1 maxIter ⟨Affine.idA, sn.1, none, sn.2.1, tn.2.1⟩

/-- `find_transformation_matrix` (lines 40–116): normalise both clouds,
run the ICP loop, then compose the final 4×4 transform (lines 111–114):
rotation block `global_scale * transformation[:3,:3]` and translation
column `target_centroid * target_scale -
(global_scale * transformation[:3,:3] @ source_centroid) * source_scale`,
where the centroid variables hold whatever the loop left in them. -/
def find_transformation_matrix (svd : Mat3 → Mat3 × Mat3) (sq : ℚ → ℚ)
    (source target : List Vec3) (maxIter : ℕ) (tol : ℚ) : Affine :=
  let sn := normalize_points source
  let tn := normalize_points target
  let globalScale := tn.2.2 / sn.2.2
  let st := icpFinalState svd sq source target maxIter tol
  let FR := globalScale • st.T.R
  ⟨FR, tn.2.2 • st.tc - sn.2.2 • FR.mulVec st.sc⟩

/-! ## The attribute transformer (`apply_transformation`) -/

/-- `np.clip(v, lo, hi)`. -/
def clipQ (v lo hi : ℚ) : ℚ :=
  min hi (max lo v)

/-- The scalar extracted from the transform at line 138:
`np.mean(np.abs(np.diag(transformation[:3, :3])))`. -/
def meanAbsDiag (M : Mat3) : ℚ :=
  (|M.xx| + |M.yy| + |M.zz|) / 3

/-- Lines 123–134: read the first three columns as a position, map it
through the homogeneous transform, and write it back. -/
def transformPosRow (T : Affine) (row : List ℚ) : List ℚ :=
  let p : Vec3 := ⟨row.getD 0 0, row.getD 1 0, row.getD 2 0⟩
  let p2 := T.R.mulVec p + T.t
  ((row.set 0 p2.x).set 1 p2.y).set 2 p2.z

/-- Line 145: `result[:, 3:6] *= scale_factor`. -/
def scaleShapeRow (sf : ℚ) (row : List ℚ) : List ℚ :=
  ((row.set 3 (row.getD 3 0 * sf)).set 4 (row.getD 4 0 * sf)).set 5 (row.getD 5 0 * sf)

/-- Line 151: `result[:, -1] = np.clip(result[:, -1] * density_factor,
0.1, 1.0)` with `density_factor = 1.0 / scale_factor`. -/
def rescaleOpacityRow (sf : ℚ) (row : List ℚ) : List ℚ :=
  row.set (row.length - 1) (clipQ (row.getD (row.length - 1) 0 * (1 / sf)) (1 / 10) 1)

/-- `apply_transformation(points_data, transformation, scale_properties)`
(lines 118–153); `sq` is the `np.sqrt` oracle used for
`scale_factor = np.sqrt(scale)`. -/
def apply_transformation (sq : ℚ → ℚ) (pointsData : List (List ℚ)) (T : Affine)
    (scaleProperties : Bool) : List (List ℚ) :=
  pointsData.map (fun row =>
    let row1 := transformPosRow T row
    if scaleProperties then
      let sf := sq (meanAbsDiag T.R)
      rescaleOpacityRow sf (scaleShapeRow sf row1)
    else row1)

/-! ## The sampling step and two-file read pipeline of `merge_splats` -/

/-- Lines 253–260 of `merge_splats`: if the *first* cloud exceeds
`alignment_sample_size`, replace **both** clouds by the points selected
by the `np.random.choice` index draws (modelled by the oracle index lists
`idx1`, `idx2`); otherwise use both full clouds. -/
def sampleForAlignment (pos1 pos2 : List Vec3) (sampleSize : ℕ)
    (idx1 idx2 : List ℕ) : List Vec3 × List Vec3 :=
  if sampleSize < pos1.length then
    (idx1.map (fun i => pos1.getD i 0), idx2.map (fun i => pos2.getD i 0))
  else (pos1, pos2)

/-- The read phase of `merge_splats` (lines 196–233): parse the *first*
file's header into the property list and struct format, then read both
files' binary records with that single format (`read_splat_data` skips
each file's own header without using it).  `none` covers every run that
produces no merged data — an unterminated header (the reader spins) as
well as a header-parse crash; `DecodeOutcome` draws that distinction for
the single-file decoder, where it matters. -/
def mergeReadPhase (O : FloatCodec) (f1 f2 : PlyFile) :
    Option (List (String × Char) × List (List ℚ) × List (List ℚ)) :=
  match read_ply_header f1.headerLines with
  | none => none
  | some hdr =>
    match parseHeaderProps hdr with
    | .error _ => none
    | .ok pr =>
      match read_splat_data O (pr.2.map Prod.snd) f1,
          read_splat_data O (pr.2.map Prod.snd) f2 with
      | some d1, some d2 => some (pr.2, d1, d2)
      | _, _ => none

/-! ## The identifier-space merger

The repository's sources delegate structure-from-motion model merging to
external reconstruction binaries; the merger component itself is defined
only by the specification, so its data model and algorithm are modelled
from the spec (§3, §4.4). -/

/-- Modelled from the spec: a camera record of a structure-from-motion
model (§3) — projection model name, width, height, parameter vector. -/
structure SfmCamera where
  model : String
  width : ℕ
  height : ℕ
  params : List ℚ
deriving DecidableEq

/-- Modelled from the spec: a pose record (§3) — rotation quaternion,
translation, owning camera identifier, name, and the ordered 2D
observation list `(x, y, point_id)` (`point_id = -1` the "unobserved"
sentinel). -/
structure SfmPose where
  qw : ℚ
  qx : ℚ
  qy : ℚ
  qz : ℚ
  t : Vec3
  cameraId : ℕ
  name : String
  obs : List (ℚ × ℚ × ℤ)
deriving DecidableEq

/-- Modelled from the spec: a 3D point record (§3) — position, color,
reprojection error, and the track of `(pose_id, observation_index)`
pairs. -/
structure SfmPoint where
  pos : Vec3
  color : ℕ × ℕ × ℕ
  err : ℚ
  track : List (ℕ × ℕ)
deriving DecidableEq

/-- Modelled from the spec: a structure-from-motion model — the three
identifier-keyed collections (§3), kept as association lists so that
duplicate or non-contiguous source identifiers are representable and
"preserved as-is" (§4.4). -/
structure SfmModel where
  cameras : List (ℕ × SfmCamera)
  poses : List (ℕ × SfmPose)
  points3D : List (ℕ × SfmPoint)
deriving DecidableEq

/-- Largest identifier in a list (`max(ids)`; `0` on an empty model, a
case the spec leaves to the nonempty-model convention). -/
def maxId (l : List ℕ) : ℕ :=
  l.foldr max 0

/-- Modelled from the spec: `merge_models(model_a, model_b)` (§4.4),
whose implementation is absent from the repository sources.  Offsets are
the three maxima of model A's identifier spaces plus one; every model-B
camera/pose/point is inserted under its offset identifier, with pose
`camera_id` fields shifted by the camera offset and every track
`(pose_id, obs_index)` pair's `pose_id` shifted by the pose offset
(`obs_index` unchanged). -/
def merge_models (a b : SfmModel) : SfmModel :=
  let camOff := maxId (a.cameras.map Prod.fst) + 1
  let poseOff := maxId (a.poses.map Prod.fst) + 1
  let ptOff := maxId (a.points3D.map Prod.fst) + 1
  { cameras := a.cameras ++ b.cameras.map (fun p => (p.1 + camOff, p.2)),
    poses := a.poses ++
      b.poses.map (fun p => (p.1 + poseOff, { p.2 with cameraId := p.2.cameraId + camOff })),
    points3D := a.points3D ++
      b.points3D.map (fun p =>
        (p.1 + ptOff, { p.2 with track := p.2.track.map (fun pr => (pr.1 + poseOff, pr.2)) })) }

/-! ## Derived projections used to state the claims -/

/-- The parsed header of a file: `none` when the header is unterminated
or its parsing loop raises. -/
def parsedHeader (f : PlyFile) : Option (ℤ × List (String × Char)) :=
  match read_ply_header f.headerLines with
  | none => none
  | some hdr => (parseHeaderProps hdr).toOption

/-- The property list the decoder extracts from a file's own header
(empty in the divergent or crashing cases). -/
def plyProps (f : PlyFile) : List (String × Char) :=
  match read_ply_header f.headerLines with
  | none => []
  | some hdr => headerProps hdr

/-- The record list the decoder extracts from a file's binary body. -/
def decodedRecords (O : FloatCodec) (f : PlyFile) : List (List ℚ) :=
  (chunkRecords (structSize ((plyProps f).map Prod.snd)) f.body).map
    (unpackFields O ((plyProps f).map Prod.snd))

/-- The condition under which, following the specification's words,
decoding a point-cloud file is required to fail with a `FormatError`:
the header is unterminated, or a declared property type is not a
recognised numeric type, or the binary body length is not an exact
multiple of the computed record size. -/
def specFormatErrorCondition (f : PlyFile) : Prop :=
  read_ply_header f.headerLines = none
  ∨ (∃ l ∈ (read_ply_header f.headerLines).getD [], l.headD "" = "property"
       ∧ (typeMap.lookup (l.getD 1 "")).isNone)
  ∨ f.body.length % structSize ((plyProps f).map Prod.snd) ≠ 0

instance : DecidablePred specFormatErrorCondition := fun f => by
  unfold specFormatErrorCondition
  infer_instance

/-- The translation column that the specification describes: the same
composition formula as the code's line 114, but evaluated at the two
clouds' *original pre-normalization centroids* rather than at whatever
the ICP loop left in the centroid variables. -/
def specFinalTranslation (svd : Mat3 → Mat3 × Mat3) (sq : ℚ → ℚ)
    (source target : List Vec3) (maxIter : ℕ) (tol : ℚ) : Vec3 :=
  let sn := normalize_points source
  let tn := normalize_points target
  let globalScale := tn.2.2 / sn.2.2
  let st := icpFinalState svd sq source target maxIter tol
  tn.2.2 • tn.2.1 - sn.2.2 • ((globalScale • st.T.R).mulVec sn.2.1)

/-! ## Helper lemmas -/

theorem Vec3.x_zero : (0 : Vec3).x = 0 := rfl

theorem Vec3.y_zero : (0 : Vec3).y = 0 := rfl

theorem Vec3.z_zero : (0 : Vec3).z = 0 := rfl

theorem Vec3.mk_zero : (⟨0, 0, 0⟩ : Vec3) = 0 := rfl

theorem Vec3.add_def (a b : Vec3) : a + b = ⟨a.x + b.x, a.y + b.y, a.z + b.z⟩ := rfl

theorem Vec3.sub_def (a b : Vec3) : a - b = ⟨a.x - b.x, a.y - b.y, a.z - b.z⟩ := rfl

theorem Vec3.qsmul_def (q : ℚ) (v : Vec3) : q • v = ⟨q * v.x, q * v.y, q * v.z⟩ := rfl

theorem Mat3.msmul_def (q : ℚ) (m : Mat3) :
    q • m = ⟨q * m.xx, q * m.xy, q * m.xz, q * m.yx, q * m.yy, q * m.yz,
             q * m.zx, q * m.zy, q * m.zz⟩ := rfl

theorem chunkAux_length (fuel sz : ℕ) (bs : List ℕ) (h : bs.length ≤ fuel) :
    (chunkAux fuel sz bs).length = bs.length / sz := by
  induction fuel generalizing bs with
  | zero =>
    have hb : bs.length = 0 := Nat.le_zero.mp h
    simp [chunkAux, hb]
  | succ n ih =>
    by_cases hc : 0 < sz ∧ sz ≤ bs.length
    · rw [chunkAux, if_pos hc, List.length_cons,
        ih (bs.drop sz) (by simp only [List.length_drop]; omega),
        List.length_drop, Nat.div_eq_sub_div hc.1 hc.2]
    · rw [chunkAux, if_neg hc, List.length_nil]
      rcases Nat.eq_zero_or_pos sz with h0 | hpos
      · simp [h0]
      · have : bs.length < sz := by omega
        exact (Nat.div_eq_of_lt this).symm

theorem chunkRecords_length (sz : ℕ) (bs : List ℕ) :
    (chunkRecords sz bs).length = bs.length / sz :=
  chunkAux_length bs.length sz bs le_rfl

/-! ## Claim C1 (corrected) -/

/-- A malformed point-cloud file for C1: one declared `float` property
(record size 4) but a 5-byte binary body — by the spec this must raise a
`FormatError`. -/
def c1File : PlyFile :=
  ⟨[["ply"], ["format", "binary_little_endian", "1.0"], ["element", "vertex", "1"],
    ["property", "float", "x"], ["end_header"]], [0, 0, 0, 0, 7]⟩

/-- C1, counterexample: the spec's `FormatError` condition holds of
`c1File` (its 5-byte body is not a multiple of the 4-byte record size),
yet decoding *succeeds*, returning one record and silently dropping the
partial trailing byte. -/
theorem c1_partial_record_decoded_without_error :
    specFormatErrorCondition c1File
    ∧ decodePointCloud zeroCodec c1File = DecodeOutcome.ok [("x", 'f')] [[0]] := by
  decide

/-- Evaluation of the embedded crash paths: a bare `property` header line
raises an uncaught `IndexError` at `parts[1]` (merge_splats.py:209), and
a non-numeric `element vertex` count raises `ValueError` at `int(...)`
(line 206) — real failure modes, but neither is a `FormatError` and
neither coincides with the spec's `FormatError` conditions. -/
theorem decode_header_parse_crashes :
    decodePointCloud zeroCodec ⟨[["ply"], ["property"], ["end_header"]], []⟩
      = DecodeOutcome.crash HeaderParseError.indexError
    ∧ decodePointCloud zeroCodec
        ⟨[["ply"], ["element", "vertex", "many"], ["end_header"]], []⟩
      = DecodeOutcome.crash HeaderParseError.valueError := by
  decide

/-- C1, amended: decoding never fails with a `FormatError`.  Its only
failure modes are an unterminated header (the reader loops forever at end
of file) and uncaught `IndexError`/`ValueError` from the header-parsing
loop (a bare `property` line or a non-integer `element vertex` count).
Whenever the header terminates and parses, the decoder *succeeds* — even
when a declared property type is unrecognised (silently parsed as 32-bit
float by `parse_property_type`) and even when the body is not an exact
multiple of the record size, in which case the partial trailing record is
silently dropped: the record count is the floor
`body length / record size`. -/
theorem c1_decode_total_and_truncating (O : FloatCodec) (f : PlyFile)
    (h : (parsedHeader f).isSome = true) :
    decodePointCloud O f = DecodeOutcome.ok (plyProps f) (decodedRecords O f)
    ∧ (decodedRecords O f).length
        = f.body.length / structSize ((plyProps f).map Prod.snd) := by
  cases hh : read_ply_header f.headerLines with
  | none => simp [parsedHeader, hh] at h
  | some hdr =>
    cases hp : parseHeaderProps hdr with
    | error e => simp [parsedHeader, hh, hp, Except.toOption] at h
    | ok pr =>
      refine ⟨?_, ?_⟩
      · simp [decodePointCloud, read_splat_data, plyProps, headerProps,
          decodedRecords, hh, hp]
      · simp [decodedRecords, chunkRecords_length]

/-- A well-formed-header file whose property type `half` is not in the
recognised map and whose 5-byte body has a partial trailing record. -/
def c1WitnessFile : PlyFile :=
  ⟨[["ply"], ["element", "vertex", "1"], ["property", "half", "x"], ["end_header"]],
   [1, 2, 3, 4, 9]⟩

/-- Witness for `c1_decode_total_and_truncating` at `c1WitnessFile`. -/
theorem c1_decode_total_and_truncating_witness :
    decodePointCloud zeroCodec c1WitnessFile
      = DecodeOutcome.ok (plyProps c1WitnessFile) (decodedRecords zeroCodec c1WitnessFile)
    ∧ (decodedRecords zeroCodec c1WitnessFile).length
        = c1WitnessFile.body.length
            / structSize ((plyProps c1WitnessFile).map Prod.snd) :=
  c1_decode_total_and_truncating zeroCodec c1WitnessFile (by decide)

/-! ## Claims C2 and C3 (the identifier-space merger, spec-modelled) -/

theorem mem_le_maxId {x : ℕ} {l : List ℕ} (h : x ∈ l) : x ≤ maxId l := by
  induction l with
  | nil => cases h
  | cons a t ih =>
    rcases List.mem_cons.mp h with rfl | hm
    · exact le_max_left _ _
    · exact le_trans (ih hm) (le_max_right _ _)

/-- Appending identifiers offset past the maximum of the first list
preserves freedom from duplicates. -/
theorem nodup_append_offset (l1 l2 : List ℕ) (h1 : l1.Nodup) (h2 : l2.Nodup) :
    (l1 ++ l2.map (· + (maxId l1 + 1))).Nodup := by
  rw [List.nodup_append]
  refine ⟨h1, h2.map (add_left_injective _), ?_⟩
  intro x hx hx2
  obtain ⟨y, _, rfl⟩ := List.mem_map.mp hx2
  have := mem_le_maxId hx
  omega

theorem merged_camera_ids (a b : SfmModel) :
    (merge_models a b).cameras.map Prod.fst
      = a.cameras.map Prod.fst
        ++ (b.cameras.map Prod.fst).map (· + (maxId (a.cameras.map Prod.fst) + 1)) := by
  simp [merge_models, List.map_map]

theorem merged_pose_ids (a b : SfmModel) :
    (merge_models a b).poses.map Prod.fst
      = a.poses.map Prod.fst
        ++ (b.poses.map Prod.fst).map (· + (maxId (a.poses.map Prod.fst) + 1)) := by
  simp [merge_models, List.map_map]

theorem merged_point_ids (a b : SfmModel) :
    (merge_models a b).points3D.map Prod.fst
      = a.points3D.map Prod.fst
        ++ (b.points3D.map Prod.fst).map (· + (maxId (a.points3D.map Prod.fst) + 1)) := by
  simp [merge_models, List.map_map]

/-- C2: merged identifier spaces are duplicate-free and referentially
intact.  For input models whose own identifier lists are duplicate-free
and whose poses' `camera_id` and points' track `pose_id` references
resolve, the merged model has no duplicate camera, pose or point
identifier (model-A identifiers and offset model-B identifiers are
disjoint), every merged pose's `camera_id` names a merged camera, and
every merged track pair's `pose_id` names a merged pose. -/
theorem c2_merge_disjointness_and_integrity (a b : SfmModel)
    (hac : (a.cameras.map Prod.fst).Nodup) (hbc : (b.cameras.map Prod.fst).Nodup)
    (hap : (a.poses.map Prod.fst).Nodup) (hbp : (b.poses.map Prod.fst).Nodup)
    (hax : (a.points3D.map Prod.fst).Nodup) (hbx : (b.points3D.map Prod.fst).Nodup)
    (hra : ∀ pr ∈ a.poses, pr.2.cameraId ∈ a.cameras.map Prod.fst)
    (hrb : ∀ pr ∈ b.poses, pr.2.cameraId ∈ b.cameras.map Prod.fst)
    (hta : ∀ pt ∈ a.points3D, ∀ tr ∈ pt.2.track, tr.1 ∈ a.poses.map Prod.fst)
    (htb : ∀ pt ∈ b.points3D, ∀ tr ∈ pt.2.track, tr.1 ∈ b.poses.map Prod.fst) :
    ((merge_models a b).cameras.map Prod.fst).Nodup
    ∧ ((merge_models a b).poses.map Prod.fst).Nodup
    ∧ ((merge_models a b).points3D.map Prod.fst).Nodup
    ∧ (∀ pr ∈ (merge_models a b).poses,
        pr.2.cameraId ∈ (merge_models a b).cameras.map Prod.fst)
    ∧ (∀ pt ∈ (merge_models a b).points3D, ∀ tr ∈ pt.2.track,
        tr.1 ∈ (merge_models a b).poses.map Prod.fst) := by
  refine ⟨?_, ?_, ?_, ?_, ?_⟩
  · rw [merged_camera_ids]
    exact nodup_append_offset _ _ hac hbc
  · rw [merged_pose_ids]
    exact nodup_append_offset _ _ hap hbp
  · rw [merged_point_ids]
    exact nodup_append_offset _ _ hax hbx
  · intro pr hpr
    rw [merged_camera_ids]
    rcases List.mem_append.mp hpr with hl | hr
    · exact List.mem_append_left _ (hra pr hl)
    · obtain ⟨q, hq, rfl⟩ := List.mem_map.mp hr
      refine List.mem_append_right _ (List.mem_map.mpr ⟨q.2.cameraId, hrb q hq, rfl⟩)
  · intro pt hpt tr htr
    rw [merged_pose_ids]
    rcases List.mem_append.mp hpt with hl | hr
    · exact List.mem_append_left _ (hta pt hl tr htr)
    · obtain ⟨q, hq, rfl⟩ := List.mem_map.mp hr
      obtain ⟨tr0, htr0, rfl⟩ := List.mem_map.mp htr
      refine List.mem_append_right _ (List.mem_map.mpr ⟨tr0.1, htb q hq tr0 htr0, rfl⟩)

/-- A tiny concrete model A for the C2 witness: one camera, one pose, one
point, all with identifier 1. -/
def modelA : SfmModel :=
  { cameras := [(1, ⟨"PINHOLE", 640, 480, [1, 1, 320, 240]⟩)],
    poses := [(1, ⟨1, 0, 0, 0, ⟨0, 0, 0⟩, 1, "a.jpg", [(5, 5, 1)]⟩)],
    points3D := [(1, ⟨⟨1, 2, 3⟩, (10, 20, 30), 1 / 2, [(1, 0)]⟩)] }

/-- A tiny concrete model B for the C2 witness, with overlapping raw
identifiers. -/
def modelB : SfmModel :=
  { cameras := [(1, ⟨"PINHOLE", 640, 480, [2, 2, 320, 240]⟩)],
    poses := [(1, ⟨1, 0, 0, 0, ⟨1, 1, 1⟩, 1, "b.jpg", [(6, 6, 1)]⟩)],
    points3D := [(1, ⟨⟨4, 5, 6⟩, (40, 50, 60), 1 / 3, [(1, 0)]⟩)] }

/-- Witness for `c2_merge_disjointness_and_integrity` on concrete models
with colliding raw identifiers. -/
theorem c2_merge_disjointness_and_integrity_witness :
    ((merge_models modelA modelB).cameras.map Prod.fst).Nodup
    ∧ ((merge_models modelA modelB).poses.map Prod.fst).Nodup
    ∧ ((merge_models modelA modelB).points3D.map Prod.fst).Nodup
    ∧ (∀ pr ∈ (merge_models modelA modelB).poses,
        pr.2.cameraId ∈ (merge_models modelA modelB).cameras.map Prod.fst)
    ∧ (∀ pt ∈ (merge_models modelA modelB).points3D, ∀ tr ∈ pt.2.track,
        tr.1 ∈ (merge_models modelA modelB).poses.map Prod.fst) :=
  c2_merge_disjointness_and_integrity modelA modelB (by decide) (by decide)
    (by decide) (by decide) (by decide) (by decide) (by decide) (by decide)
    (by decide) (by decide)

/-- C3: merge count conservation — the merged model has exactly the sum
of the two inputs' camera, pose and point counts. -/
theorem c3_merge_count_conservation (a b : SfmModel) :
    (merge_models a b).cameras.length = a.cameras.length + b.cameras.length
    ∧ (merge_models a b).poses.length = a.poses.length + b.poses.length
    ∧ (merge_models a b).points3D.length = a.points3D.length + b.points3D.length := by
  refine ⟨?_, ?_, ?_⟩ <;> simp [merge_models]

/-! ## Claim C4 (code bug) -/

/-- The failing input for C4: a schema with one `double` property. -/
def c4Props : List (String × Char) := [("x", 'd')]

/-- C4, evaluation of the code at the failing input: for a one-point
cloud whose (well-formed) input schema declares `double x`, the writer of
`merge_splats.py` emits a header declaring `property float x` — whose own
computed record size is 4 bytes — while packing the binary body with the
*input* schema's struct format, producing an 8-byte record.  The body is
therefore not packed as 32-bit floats, contradicting the header the code
itself just wrote. -/
theorem c4_encoder_header_body_mismatch :
    writePlyHeaderLines 1 c4Props
      = [["ply"], ["format", "binary_little_endian", "1.0"], ["element", "vertex", "1"],
         ["property", "float", "x"], ["end_header"]]
    ∧ (writeBody zeroCodec ['d'] [[1]]).length = 8
    ∧ structSize
        ((headerProps (writePlyHeaderLines 1 c4Props)).map Prod.snd) = 4 := by
  decide

/-! ## Claim C7 (code bug) -/

/-- The failing input for C7: a well-formed one-point cloud whose single
property is a `double` (8 zero bytes of body, record size 8). -/
def c7File : PlyFile :=
  ⟨[["ply"], ["format", "binary_little_endian", "1.0"], ["element", "vertex", "1"],
    ["property", "double", "x"], ["end_header"]], [0, 0, 0, 0, 0, 0, 0, 0]⟩

/-- C7, evaluation of the code at the failing input: `c7File` decodes to
one record, but re-encoding that decode result and decoding again yields
**two** records — the re-encoded file's header declares `float` (record
size 4) while its body was packed with the original `double` format
(8 bytes), so the round trip does not preserve the point count. -/
theorem c7_roundtrip_count_not_preserved :
    decodePointCloud zeroCodec c7File = DecodeOutcome.ok [("x", 'd')] [[0]]
    ∧ decodePointCloud zeroCodec (encodePointCloud zeroCodec [("x", 'd')] [[0]])
        = DecodeOutcome.ok [("x", 'f')] [[0], [0]] := by
  decide

/-! ## Claim C5 (corrected)

Concrete run refuting the translation part of the claim: two collinear
two-point clouds whose normalised forms coincide, with the SVD oracle
returning the identity factors (a valid decomposition of the diagonal
cross-covariance arising here) and the square-root oracle evaluated only
at 0. -/

/-- SVD oracle for the C5 counterexample run. -/
def cSvd : Mat3 → Mat3 × Mat3 := fun _ => (Mat3.id, Mat3.id)

/-- Square-root oracle for the C5 counterexample run (only ever applied
to 0 on this input). -/
def cSq : ℚ → ℚ := fun _ => 0

/-- Source cloud: centroid `(10,0,0)`, scale 1. -/
def cSource : List Vec3 := [⟨9, 0, 0⟩, ⟨11, 0, 0⟩]

/-- Target cloud: centroid `(5,0,0)`, scale 1. -/
def cTarget : List Vec3 := [⟨4, 0, 0⟩, ⟨6, 0, 0⟩]

theorem c5EvalNormSource :
    normalize_points cSource = ([⟨-1, 0, 0⟩, ⟨1, 0, 0⟩], ⟨10, 0, 0⟩, 1) := by
  norm_num [normalize_points, centroid, vsum, maxAbsCoord, Vec3.divQ, cSource,
    Vec3.add_def, Vec3.sub_def, Vec3.qsmul_def, Vec3.x_zero, Vec3.y_zero, Vec3.z_zero]

theorem c5EvalNormTarget :
    normalize_points cTarget = ([⟨-1, 0, 0⟩, ⟨1, 0, 0⟩], ⟨5, 0, 0⟩, 1) := by
  norm_num [normalize_points, centroid, vsum, maxAbsCoord, Vec3.divQ, cTarget,
    Vec3.add_def, Vec3.sub_def, Vec3.qsmul_def, Vec3.x_zero, Vec3.y_zero, Vec3.z_zero]

/-- One ICP iteration on the normalised clouds: the correspondence is
exact, both loop centroids come out `(0,0,0)`, the oracle rotation is the
identity, and the loop reassigns the centroid variables. -/
theorem c5EvalLoop : icpLoop cSvd cSq (1 / 1000000) [⟨-1, 0, 0⟩, ⟨1, 0, 0⟩] 1
    ⟨Affine.idA, [⟨-1, 0, 0⟩, ⟨1, 0, 0⟩], none, ⟨10, 0, 0⟩, ⟨5, 0, 0⟩⟩
    = ⟨Affine.idA, [⟨-1, 0, 0⟩, ⟨1, 0, 0⟩], some 0, 0, 0⟩ := by
  norm_num [icpLoop, nnPoint, crossCov, icpRotation, qmean, Vec3.sqdist, Vec3.outer,
    Mat3.mul, Mat3.mulVec, Mat3.transpose, Mat3.det, Mat3.id, Mat3.negRow3,
    Affine.comp, Affine.idA, cSvd, cSq, centroid, vsum, Vec3.mk_zero,
    Vec3.add_def, Vec3.sub_def, Vec3.qsmul_def, Vec3.x_zero, Vec3.y_zero, Vec3.z_zero]

theorem c5EvalFinalState : icpFinalState cSvd cSq cSource cTarget 1 (1 / 1000000)
    = ⟨Affine.idA, [⟨-1, 0, 0⟩, ⟨1, 0, 0⟩], some 0, 0, 0⟩ := by
  rw [icpFinalState, c5EvalNormSource, c5EvalNormTarget]
  exact c5EvalLoop

/-- The transform the code actually returns on this run: its translation
column is `0`, because the loop overwrote both centroid variables with
the (zero) centroids of the normalised clouds. -/
theorem c5EvalCodeTranslation :
    (find_transformation_matrix cSvd cSq cSource cTarget 1 (1 / 1000000)).t = 0 := by
  rw [find_transformation_matrix, c5EvalNormSource, c5EvalNormTarget, c5EvalFinalState]
  norm_num [Mat3.mulVec, Mat3.id, Mat3.msmul_def, Vec3.qsmul_def, Vec3.sub_def,
    Vec3.x_zero, Vec3.y_zero, Vec3.z_zero, Vec3.mk_zero]

/-- The translation the specification prescribes on the same run,
computed from the original pre-normalization centroids `(5,0,0)` and
`(10,0,0)` and unit scales: `(-5,0,0)`. -/
theorem c5EvalSpecTranslation :
    specFinalTranslation cSvd cSq cSource cTarget 1 (1 / 1000000) = ⟨-5, 0, 0⟩ := by
  rw [specFinalTranslation, c5EvalNormSource, c5EvalNormTarget, c5EvalFinalState]
  norm_num [Mat3.mulVec, Mat3.id, Mat3.msmul_def, Vec3.qsmul_def, Vec3.sub_def, Affine.idA]

/-- C5, counterexample: on a concrete pair of clouds the translation
column of the code's final transform differs from the one computed from
the two clouds' original pre-normalization centroids and scales — the
variables `source_centroid` / `target_centroid` read at line 114 were
reassigned inside the ICP loop (lines 70–71), so the translation *is*
built from quantities produced during the correspondence iterations.
(The resulting transform here is the identity, which fails to move the
source cloud onto the target at all.) -/
theorem c5_translation_uses_loop_centroids :
    (find_transformation_matrix cSvd cSq cSource cTarget 1 (1 / 1000000)).t
      ≠ specFinalTranslation cSvd cSq cSource cTarget 1 (1 / 1000000) := by
  rw [c5EvalCodeTranslation, c5EvalSpecTranslation]
  decide

/-- C5, amended: the final transform's rotation block is, as claimed,
`(target_scale / source_scale)` times the accumulated normalized-space
rotation; but its translation column is computed from the centroid
variables as the ICP loop last left them (the centroids of the current
normalised source sample and of its matched correspondences), scaled by
the original scales — it equals the claimed pre-normalization-centroid
formula only when the loop runs zero iterations. -/
theorem c5_final_transform_composition (svd : Mat3 → Mat3 × Mat3) (sq : ℚ → ℚ)
    (source target : List Vec3) (maxIter : ℕ) (tol : ℚ) :
    (find_transformation_matrix svd sq source target maxIter tol).R
      = ((normalize_points target).2.2 / (normalize_points source).2.2)
          • (icpFinalState svd sq source target maxIter tol).T.R
    ∧ (find_transformation_matrix svd sq source target maxIter tol).t
      = (normalize_points target).2.2 • (icpFinalState svd sq source target maxIter tol).tc
        - (normalize_points source).2.2
            • ((((normalize_points target).2.2 / (normalize_points source).2.2)
                  • (icpFinalState svd sq source target maxIter tol).T.R).mulVec
                (icpFinalState svd sq source target maxIter tol).sc) :=
  ⟨rfl, rfl⟩

/-! ## Claim C6 (corrected) -/

/-- C6, counterexample: with `sample_size = 2`, a first cloud of 1 point
and a second cloud of 3 points, *either set exceeds the sample size*
(the second does), so by the claim a subset of size 2 should be drawn —
but the code's condition tests only the first cloud, so no sampling
happens and the full 3-point second cloud is used for the iterative
phase (the index draws, here `[0, 1]`, are never consulted). -/
theorem c6_second_cloud_excess_triggers_no_sampling :
    2 < ([⟨1, 0, 0⟩, ⟨2, 0, 0⟩, ⟨3, 0, 0⟩] : List Vec3).length
    ∧ sampleForAlignment [⟨0, 0, 0⟩] [⟨1, 0, 0⟩, ⟨2, 0, 0⟩, ⟨3, 0, 0⟩] 2 [0, 1] [0, 1]
        = ([⟨0, 0, 0⟩], [⟨1, 0, 0⟩, ⟨2, 0, 0⟩, ⟨3, 0, 0⟩]) := by
  decide

/-- C6, amended: sampling is controlled by the *first* cloud alone.
Whenever the first cloud does not exceed `sample_size`, both full clouds
are used for the iterative phase, even if the second cloud exceeds it;
when the first cloud does exceed it, *both* clouds are replaced by the
points selected by their `np.random.choice` index draws — under the
draws' contract (`sample_size` indices, in range; NumPy raises if the
second cloud has fewer than `sample_size` points) each replacement is a
size-`sample_size` selection of members of the corresponding cloud. -/
theorem c6_sampling_tests_only_first_cloud (p1 p2 : List Vec3) (s : ℕ)
    (i1 i2 : List ℕ) (hlen1 : i1.length = s) (hlen2 : i2.length = s)
    (hr1 : ∀ i ∈ i1, i < p1.length) (hr2 : ∀ i ∈ i2, i < p2.length) :
    (p1.length ≤ s → sampleForAlignment p1 p2 s i1 i2 = (p1, p2))
    ∧ (s < p1.length →
        sampleForAlignment p1 p2 s i1 i2
          = (i1.map (fun i => p1.getD i 0), i2.map (fun i => p2.getD i 0))
        ∧ (sampleForAlignment p1 p2 s i1 i2).1.length = s
        ∧ (sampleForAlignment p1 p2 s i1 i2).2.length = s
        ∧ (∀ q ∈ (sampleForAlignment p1 p2 s i1 i2).1, q ∈ p1)
        ∧ (∀ q ∈ (sampleForAlignment p1 p2 s i1 i2).2, q ∈ p2)) := by
  constructor
  · intro h
    rw [sampleForAlignment, if_neg (by omega)]
  · intro h
    have he : sampleForAlignment p1 p2 s i1 i2
        = (i1.map (fun i => p1.getD i 0), i2.map (fun i => p2.getD i 0)) := by
      rw [sampleForAlignment, if_pos h]
    refine ⟨he, ?_, ?_, ?_, ?_⟩
    · rw [he]
      simp [hlen1]
    · rw [he]
      simp [hlen2]
    · rw [he]
      intro q hq
      obtain ⟨i, hi, rfl⟩ := List.mem_map.mp hq
      have hilt := hr1 i hi
      rw [List.getD_eq_getElem?_getD, List.getElem?_eq_getElem hilt]
      simp [List.getElem_mem hilt]
    · rw [he]
      intro q hq
      obtain ⟨i, hi, rfl⟩ := List.mem_map.mp hq
      have hilt := hr2 i hi
      rw [List.getD_eq_getElem?_getD, List.getElem?_eq_getElem hilt]
      simp [List.getElem_mem hilt]

/-- Witness for `c6_sampling_tests_only_first_cloud`: a 2-point first
cloud, a 1-point second cloud, sample size 1, one in-range index draw
for each cloud — this instance exercises the sampling branch (the first
cloud exceeds the sample size). -/
theorem c6_sampling_tests_only_first_cloud_witness :
    (([⟨1, 0, 0⟩, ⟨2, 0, 0⟩] : List Vec3).length ≤ 1 →
        sampleForAlignment [⟨1, 0, 0⟩, ⟨2, 0, 0⟩] [⟨3, 0, 0⟩] 1 [1] [0]
          = ([⟨1, 0, 0⟩, ⟨2, 0, 0⟩], [⟨3, 0, 0⟩]))
    ∧ (1 < ([⟨1, 0, 0⟩, ⟨2, 0, 0⟩] : List Vec3).length →
        sampleForAlignment [⟨1, 0, 0⟩, ⟨2, 0, 0⟩] [⟨3, 0, 0⟩] 1 [1] [0]
          = ([1].map (fun i => ([⟨1, 0, 0⟩, ⟨2, 0, 0⟩] : List Vec3).getD i 0),
             [0].map (fun i => ([⟨3, 0, 0⟩] : List Vec3).getD i 0))
        ∧ (sampleForAlignment [⟨1, 0, 0⟩, ⟨2, 0, 0⟩] [⟨3, 0, 0⟩] 1 [1] [0]).1.length = 1
        ∧ (sampleForAlignment [⟨1, 0, 0⟩, ⟨2, 0, 0⟩] [⟨3, 0, 0⟩] 1 [1] [0]).2.length = 1
        ∧ (∀ q ∈ (sampleForAlignment [⟨1, 0, 0⟩, ⟨2, 0, 0⟩] [⟨3, 0, 0⟩] 1 [1] [0]).1,
            q ∈ ([⟨1, 0, 0⟩, ⟨2, 0, 0⟩] : List Vec3))
        ∧ (∀ q ∈ (sampleForAlignment [⟨1, 0, 0⟩, ⟨2, 0, 0⟩] [⟨3, 0, 0⟩] 1 [1] [0]).2,
            q ∈ ([⟨3, 0, 0⟩] : List Vec3))) :=
  c6_sampling_tests_only_first_cloud [⟨1, 0, 0⟩, ⟨2, 0, 0⟩] [⟨3, 0, 0⟩] 1 [1] [0]
    (by decide) (by decide) (by decide) (by decide)

/-! ## Claims C8 and C9 (the attribute transformer) -/

theorem transformPosRow_length (T : Affine) (row : List ℚ) :
    (transformPosRow T row).length = row.length := by
  simp [transformPosRow]

theorem scaleShapeRow_length (sf : ℚ) (row : List ℚ) :
    (scaleShapeRow sf row).length = row.length := by
  simp [scaleShapeRow]

theorem rescaleOpacityRow_length (sf : ℚ) (row : List ℚ) :
    (rescaleOpacityRow sf row).length = row.length := by
  simp [rescaleOpacityRow]

theorem apply_transformation_getD (sq : ℚ → ℚ) (T : Affine) (rows : List (List ℚ))
    (i : ℕ) (hi : i < rows.length) :
    (apply_transformation sq rows T true).getD i []
      = rescaleOpacityRow (sq (meanAbsDiag T.R))
          (scaleShapeRow (sq (meanAbsDiag T.R)) (transformPosRow T (rows.getD i []))) := by
  simp [apply_transformation, List.getD_eq_getElem?_getD, List.getElem?_map,
    List.getElem?_eq_getElem hi]

theorem transformPosRow_getD_ge (T : Affine) (row : List ℚ) (j : ℕ) (hj : 3 ≤ j) :
    (transformPosRow T row).getD j 0 = row.getD j 0 := by
  rw [transformPosRow]
  rw [List.getD_eq_getElem?_getD, List.getElem?_set_ne (by omega),
    List.getElem?_set_ne (by omega), List.getElem?_set_ne (by omega),
    ← List.getD_eq_getElem?_getD]

theorem scaleShapeRow_getD_ge (sf : ℚ) (row : List ℚ) (j : ℕ) (hj : 6 ≤ j) :
    (scaleShapeRow sf row).getD j 0 = row.getD j 0 := by
  rw [scaleShapeRow]
  rw [List.getD_eq_getElem?_getD, List.getElem?_set_ne (by omega),
    List.getElem?_set_ne (by omega), List.getElem?_set_ne (by omega),
    ← List.getD_eq_getElem?_getD]

theorem rescaleOpacityRow_getD_last (sf : ℚ) (row : List ℚ) (h : 0 < row.length) :
    (rescaleOpacityRow sf row).getD (row.length - 1) 0
      = clipQ (row.getD (row.length - 1) 0 * (1 / sf)) (1 / 10) 1 := by
  rw [rescaleOpacityRow, List.getD_eq_getElem?_getD,
    List.getElem?_set_eq_of_lt _ (by omega)]
  rfl

theorem rescaleOpacityRow_getD_ne (sf : ℚ) (row : List ℚ) (j : ℕ)
    (h : j ≠ row.length - 1) :
    (rescaleOpacityRow sf row).getD j 0 = row.getD j 0 := by
  rw [rescaleOpacityRow, List.getD_eq_getElem?_getD,
    List.getElem?_set_ne (by omega), ← List.getD_eq_getElem?_getD]

/-- C8: for every point row (with the layout the code assumes: at least
7 columns, opacity last), the transformed row's last entry is
`np.clip(opacity / sqrt(scale), 0.1, 1.0)` where `scale` is the mean
absolute value of the diagonal of the transform's rotation block (the
code computes `opacity * (1/sqrt(scale))`, equal to the division), and
consequently every output opacity lies in `[0.1, 1.0]`. -/
theorem c8_opacity_rescaled_and_clipped (sq : ℚ → ℚ) (T : Affine)
    (rows : List (List ℚ)) (i : ℕ)
    (hi : i < rows.length) (hlen : 7 ≤ (rows.getD i []).length) :
    ((apply_transformation sq rows T true).getD i []).getD
        (((apply_transformation sq rows T true).getD i []).length - 1) 0
      = clipQ ((rows.getD i []).getD ((rows.getD i []).length - 1) 0
                 / sq (meanAbsDiag T.R)) (1 / 10) 1
    ∧ (1 : ℚ) / 10
        ≤ ((apply_transformation sq rows T true).getD i []).getD
            (((apply_transformation sq rows T true).getD i []).length - 1) 0
    ∧ ((apply_transformation sq rows T true).getD i []).getD
        (((apply_transformation sq rows T true).getD i []).length - 1) 0 ≤ 1 := by
  have hrow := apply_transformation_getD sq T rows i hi
  set row := rows.getD i [] with hrdef
  set sf := sq (meanAbsDiag T.R) with hsf
  have hlen2 : ((apply_transformation sq rows T true).getD i []).length = row.length := by
    rw [hrow, rescaleOpacityRow_length, scaleShapeRow_length, transformPosRow_length]
  have hinnerlen : (scaleShapeRow sf (transformPosRow T row)).length = row.length := by
    rw [scaleShapeRow_length, transformPosRow_length]
  have hval : ((apply_transformation sq rows T true).getD i []).getD
      (((apply_transformation sq rows T true).getD i []).length - 1) 0
      = clipQ (row.getD (row.length - 1) 0 * (1 / sf)) (1 / 10) 1 := by
    rw [hlen2, hrow, ← hinnerlen, rescaleOpacityRow_getD_last _ _ (by omega),
      hinnerlen, scaleShapeRow_getD_ge _ _ _ (by omega),
      transformPosRow_getD_ge _ _ _ (by omega)]
  refine ⟨?_, ?_, ?_⟩
  · rw [hval, mul_one_div]
  · rw [hval, clipQ]
    exact le_min (by norm_num) (le_max_left _ _)
  · rw [hval, clipQ]
    exact min_le_left _ _

/-- Witness for `c8_opacity_rescaled_and_clipped` on a 10-column row with
opacity `5` and the identity transform (square-root oracle the identity,
so `scale = sqrt(scale) = 1`). -/
theorem c8_opacity_rescaled_and_clipped_witness :
    ((apply_transformation (fun q => q) [[0, 0, 0, 1, 1, 1, 2, 3, 4, 5]] Affine.idA
          true).getD 0 []).getD
        (((apply_transformation (fun q => q) [[0, 0, 0, 1, 1, 1, 2, 3, 4, 5]] Affine.idA
              true).getD 0 []).length - 1) 0
      = clipQ ((([[0, 0, 0, 1, 1, 1, 2, 3, 4, 5]] : List (List ℚ)).getD 0 []).getD
                 ((([[0, 0, 0, 1, 1, 1, 2, 3, 4, 5]] : List (List ℚ)).getD 0 []).length - 1)
                 0 / (fun q => q) (meanAbsDiag Affine.idA.R)) (1 / 10) 1
    ∧ (1 : ℚ) / 10
        ≤ ((apply_transformation (fun q => q) [[0, 0, 0, 1, 1, 1, 2, 3, 4, 5]] Affine.idA
              true).getD 0 []).getD
            (((apply_transformation (fun q => q) [[0, 0, 0, 1, 1, 1, 2, 3, 4, 5]] Affine.idA
                  true).getD 0 []).length - 1) 0
    ∧ ((apply_transformation (fun q => q) [[0, 0, 0, 1, 1, 1, 2, 3, 4, 5]] Affine.idA
          true).getD 0 []).getD
        (((apply_transformation (fun q => q) [[0, 0, 0, 1, 1, 1, 2, 3, 4, 5]] Affine.idA
              true).getD 0 []).length - 1) 0 ≤ 1 :=
  c8_opacity_rescaled_and_clipped (fun q => q) Affine.idA
    [[0, 0, 0, 1, 1, 1, 2, 3, 4, 5]] 0 (by decide) (by decide)

/-- C9: the transformer touches only the position columns (0–2), the
shape/scale columns (3–5) and the final opacity column: every column
`j` with `6 ≤ j < length − 1` — in the code's assumed layout the
orientation components and any further attribute — is returned
unchanged, and the row length is preserved. -/
theorem c9_other_attributes_unchanged (sq : ℚ → ℚ) (T : Affine)
    (rows : List (List ℚ)) (i : ℕ) (hi : i < rows.length) :
    ((apply_transformation sq rows T true).getD i []).length = (rows.getD i []).length
    ∧ ∀ j, 6 ≤ j → j + 1 < (rows.getD i []).length →
        ((apply_transformation sq rows T true).getD i []).getD j 0
          = (rows.getD i []).getD j 0 := by
  have hrow := apply_transformation_getD sq T rows i hi
  set row := rows.getD i [] with hrdef
  set sf := sq (meanAbsDiag T.R) with hsf
  have hinnerlen : (scaleShapeRow sf (transformPosRow T row)).length = row.length := by
    rw [scaleShapeRow_length, transformPosRow_length]
  constructor
  · rw [hrow, rescaleOpacityRow_length, hinnerlen]
  · intro j hj6 hjlt
    rw [hrow, rescaleOpacityRow_getD_ne _ _ _ (by rw [hinnerlen]; omega),
      scaleShapeRow_getD_ge _ _ _ (by omega), transformPosRow_getD_ge _ _ _ (by omega)]

/-- Witness for `c9_other_attributes_unchanged` on a 10-column row. -/
theorem c9_other_attributes_unchanged_witness :
    ((apply_transformation (fun q => q) [[9, 9, 9, 1, 1, 1, 2, 3, 4, 5]] Affine.idA
          true).getD 0 []).length
      = (([[9, 9, 9, 1, 1, 1, 2, 3, 4, 5]] : List (List ℚ)).getD 0 []).length
    ∧ ∀ j, 6 ≤ j → j + 1 < (([[9, 9, 9, 1, 1, 1, 2, 3, 4, 5]] : List (List ℚ)).getD 0
          []).length →
        ((apply_transformation (fun q => q) [[9, 9, 9, 1, 1, 1, 2, 3, 4, 5]] Affine.idA
              true).getD 0 []).getD j 0
          = (([[9, 9, 9, 1, 1, 1, 2, 3, 4, 5]] : List (List ℚ)).getD 0 []).getD j 0 :=
  c9_other_attributes_unchanged (fun q => q) Affine.idA
    [[9, 9, 9, 1, 1, 1, 2, 3, 4, 5]] 0 (by decide)

/-! ## Claim C10 (the second file's schema is never consulted) -/

/-- C10: the merge's read phase decodes the second file's body with the
property list and record size taken from the *first* file's header.  The
second file's own header is skipped line by line and none of its
declarations are consulted: replacing it by any other terminated header
leaves the result unchanged, and the second file's records are exactly
its body chunked by the first file's record size and decoded with the
first file's property types. -/
theorem c10_second_file_schema_ignored (O : FloatCodec) (f1 : PlyFile)
    (h2a h2b : List (List String)) (body2 : List ℕ)
    (ta : read_ply_header h2a ≠ none) (tb : read_ply_header h2b ≠ none) :
    mergeReadPhase O f1 ⟨h2a, body2⟩ = mergeReadPhase O f1 ⟨h2b, body2⟩
    ∧ ∀ props d1 d2, mergeReadPhase O f1 ⟨h2a, body2⟩ = some (props, d1, d2) →
        d2 = (chunkRecords (structSize (props.map Prod.snd)) body2).map
               (unpackFields O (props.map Prod.snd)) := by
  obtain ⟨ha, hha⟩ := Option.ne_none_iff_exists'.mp ta
  obtain ⟨hb, hhb⟩ := Option.ne_none_iff_exists'.mp tb
  cases hf1 : read_ply_header f1.headerLines with
  | none =>
    constructor
    · simp [mergeReadPhase, hf1]
    · intro props d1 d2 h
      simp [mergeReadPhase, hf1] at h
  | some hdr =>
    cases hp : parseHeaderProps hdr with
    | error e =>
      constructor
      · simp [mergeReadPhase, hf1, hp]
      · intro props d1 d2 h
        simp [mergeReadPhase, hf1, hp] at h
    | ok pr =>
      cases hd1 : read_splat_data O (pr.2.map Prod.snd) f1 with
      | none =>
        constructor
        · simp [mergeReadPhase, hf1, hp, hd1]
        · intro props d1 d2 h
          simp [mergeReadPhase, hf1, hp, hd1] at h
      | some rows1 =>
        constructor
        · simp [mergeReadPhase, hf1, hp, hd1, read_splat_data, hha, hhb]
        · intro props d1 d2 h
          simp [mergeReadPhase, hf1, hp, hd1, read_splat_data, hha] at h
          obtain ⟨hpr, _, hd2⟩ := h
          rw [← hd2, ← hpr]

/-- First input file for the C10 witness: one `float` property, 4-byte
body. -/
def c10File1 : PlyFile :=
  ⟨[["ply"], ["element", "vertex", "1"], ["property", "float", "x"], ["end_header"]],
   [0, 0, 0, 0]⟩

/-- A second-file header declaring a `double` property (C10 witness). -/
def c10HeaderA : List (List String) :=
  [["ply"], ["element", "vertex", "1"], ["property", "double", "x"], ["end_header"]]

/-- A second-file header declaring nothing at all (C10 witness). -/
def c10HeaderB : List (List String) :=
  [["comment", "no", "declarations"], ["end_header"]]

/-- Witness for `c10_second_file_schema_ignored`: the two wildly
different second-file headers produce identical merge reads. -/
theorem c10_second_file_schema_ignored_witness :
    mergeReadPhase zeroCodec c10File1 ⟨c10HeaderA, [1, 1, 1, 1]⟩
      = mergeReadPhase zeroCodec c10File1 ⟨c10HeaderB, [1, 1, 1, 1]⟩
    ∧ ∀ props d1 d2,
        mergeReadPhase zeroCodec c10File1 ⟨c10HeaderA, [1, 1, 1, 1]⟩ = some (props, d1, d2) →
        d2 = (chunkRecords (structSize (props.map Prod.snd)) [1, 1, 1, 1]).map
               (unpackFields zeroCodec (props.map Prod.snd)) :=
  c10_second_file_schema_ignored zeroCodec c10File1 c10HeaderA c10HeaderB
    [1, 1, 1, 1] (by decide) (by decide)

end RealEarth
